import Mathlib

/-!
# Verification of the Twitchrise bot's live-state reconciliation loop

A shallow embedding of `src/bot.py`: the resolver cache (`get_user_ids`),
the live-state poller (`get_live_streams`), the reconciliation cycle of
`monitor_twitch`, and the subscription-store command handlers
(`add_channel`, `remove_channel`, `confirm_apprise`, `remove_apprise`).

Python dicts are modelled as association lists over `String` keys with
first-match lookup (`dget`) and in-place update (`dset`); upstream HTTP
calls are modelled by an `Except Unit` parameter holding either the parsed
response payload or a raised exception. Exceptions caught by a `try`
block in the source become explicit branches on that parameter.
-/

namespace Twitchrise

/-- First-match lookup in an association list: python `d.get(k)` /
`d[k]` plus the `k in d` membership test. -/
def dget {α : Type} : List (String × α) → String → Option α
  | [], _ => none
  | p :: rest, k => if p.1 = k then some p.2 else dget rest k

/-- In-place update of an association list: python `d[k] = v`
(replaces the binding when the key is present, appends otherwise,
preserving insertion order as python dicts do). -/
def dset {α : Type} : List (String × α) → String → α → List (String × α)
  | [], k, v => [(k, v)]
  | p :: rest, k, v => if p.1 = k then (k, v) :: rest else p :: dset rest k v

/-- Python `s.lower()`: lowercase every character. -/
def pyLower (s : String) : String :=
  ⟨s.data.map Char.toLower⟩

/-- A live-stream record as returned by the streams endpoint
(`stream['title']`, `stream['game_name']`, `stream['viewer_count']`). -/
structure StreamInfo where
  title : String
  game_name : String
  viewer_count : Nat
deriving DecidableEq

/-- `live_status` / `current_live` in `bot.py`: `{twitch_user_id: bool}`.
Absent entries read as `False` via `live_status.get(uid, False)`. -/
abbrev Snapshot := List (String × Bool)

/-- `live_status.get(uid, False)` / `current_live.get(uid, False)`. -/
def snapGetD (s : Snapshot) (uid : String) : Bool :=
  (dget s uid).getD false

/-- `user_ids_cache` in `bot.py`: `{username: user_id}`. -/
abbrev Cache := List (String × String)

/-- One subscriber's record in `watchlists.json`:
`{"channels": [...], "apprise_urls": [...]}`. -/
structure Subscription where
  channels : List String
  apprise_urls : List String
deriving DecidableEq

/-- The `watchlists` global: `{chat_id: {"channels": ..., "apprise_urls": ...}}`. -/
abbrev Watchlists := List (String × Subscription)

/-- The mutable global state read and written by the monitor thread. -/
structure MonitorState where
  watchlists : Watchlists
  cache : Cache
  live_status : Snapshot
deriving DecidableEq

/-- The kind of notification sent by `send_notification` call sites:
the two transition notifications of `monitor_twitch` and the immediate
"already LIVE" notification of `add_channel`. -/
inductive Transition where
  | wentLive
  | wentOffline
  | alreadyLive
deriving DecidableEq

/-- One `send_notification(chat_id, title, body)` call, tagged with the
channel username and the transition that triggered it. -/
structure Intent where
  chat_id : String
  channel : String
  kind : Transition
  title : String
  body : String
deriving DecidableEq

/-- Body text of a went-live notification (`bot.py` line 137). -/
def liveBody (username : String) (s : StreamInfo) : String :=
  s.title ++ "\nGame: " ++ s.game_name ++ "\nViewers: " ++ toString s.viewer_count
    ++ "\nhttps://twitch.tv/" ++ username

/-- The notification emitted when a channel goes live (`bot.py` 134-139). -/
def liveIntent (chat_id username : String) (s : StreamInfo) : Intent :=
  { chat_id := chat_id, channel := username, kind := .wentLive
    title := "🔴 " ++ username ++ " is now LIVE!"
    body := liveBody username s }

/-- The notification emitted when a channel goes offline (`bot.py` 141-145). -/
def offlineIntent (chat_id username : String) : Intent :=
  { chat_id := chat_id, channel := username, kind := .wentOffline
    title := "⚫ " ++ username ++ " has gone offline."
    body := username ++ " is no longer streaming.\nhttps://twitch.tv/" ++ username }

/-- The immediate notification of `add_channel` (`bot.py` 200-205). -/
def alreadyLiveIntent (chat_id channel : String) (s : StreamInfo) : Intent :=
  { chat_id := chat_id, channel := channel, kind := .alreadyLive
    title := "🟢 " ++ channel ++ " is already LIVE!"
    body := liveBody channel s }

/-- `get_user_ids(headers, usernames)` (`bot.py` 65-77). The upstream
`/helix/users` response is the `upstream` parameter: `.ok data` is the
parsed `resp.json()["data"]` as `(login, id)` pairs, `.error` a raised
request exception. Returns the cache after the call (the python global
`user_ids_cache`, mutated in place) together with either the returned
name-to-id mapping or the propagated exception. -/
def get_user_ids (cache : Cache) (usernames : List String)
    (upstream : Except Unit (List (String × String))) :
    Cache × Except Unit (List (String × String)) :=
  let us := usernames.map pyLower
  let to_fetch := us.filter fun u => (dget cache u).isNone
  if to_fetch.isEmpty then
    (cache, .ok (us.filterMap fun u => (dget cache u).map fun i => (u, i)))
  else
    match upstream with
    | .error e => (cache, .error e)
    | .ok data =>
      let cache' := data.foldl (fun c p => dset c p.1 p.2) cache
      (cache', .ok (us.filterMap fun u => (dget cache' u).map fun i => (u, i)))

/-- `get_live_streams(headers, user_ids)` (`bot.py` 79-86): empty input
short-circuits to an empty dict without touching the network; otherwise
the upstream `/helix/streams` response (or its exception) is returned,
keyed by `user_id`. -/
def get_live_streams (user_ids : List String)
    (upstream : Except Unit (List (String × StreamInfo))) :
    Except Unit (List (String × StreamInfo)) :=
  if user_ids.isEmpty then .ok []
  else upstream

/-- `current_live = {uid: True for uid in live_data}` (`bot.py` 122). -/
def currentLive (live_data : List (String × StreamInfo)) : Snapshot :=
  live_data.map fun p => (p.1, true)

/-- The per-channel body of the reconciliation loop (`bot.py` 127-145):
look up the channel's resolved id, skip when missing or falsy, then
compare the previous and current snapshots and build the notification
for a transition, if any. -/
def decideIntent (chat_id username : String) (user_id_map : List (String × String))
    (prev cur : Snapshot) (live_data : List (String × StreamInfo)) : Option Intent :=
  match dget user_id_map (pyLower username) with
  | none => none
  | some uid =>
    if uid = "" then none
    else
      let was_live := snapGetD prev uid
      let is_live := snapGetD cur uid
      if is_live && !was_live then
        some (liveIntent chat_id username ((dget live_data uid).getD ⟨"", "", 0⟩))
      else if !is_live && was_live then
        some (offlineIntent chat_id username)
      else none

/-- The "Check changes per user" loop of `monitor_twitch` (`bot.py`
125-145): every subscriber, every watched channel, in order. -/
def checkChanges (w : Watchlists) (user_id_map : List (String × String))
    (prev cur : Snapshot) (live_data : List (String × StreamInfo)) : List Intent :=
  w.flatMap fun p =>
    p.2.channels.filterMap fun username =>
      decideIntent p.1 username user_id_map prev cur live_data

/-- `all_channels` gathered at the top of each cycle (`bot.py` 113-115);
the python code builds a set, which only membership-level results rely on. -/
def allChannels (w : Watchlists) : List String :=
  w.flatMap fun p => p.2.channels

/-- One iteration of the `while True` loop of `monitor_twitch`
(`bot.py` 109-151). `ru` and `pu` are this tick's upstream responses for
the users and streams endpoints. An exception from either call is caught
by the surrounding `except`, leaving `live_status` untouched and emitting
no notifications; the resolver cache keeps any mutations already made. -/
def runCycle (st : MonitorState) (ru : Except Unit (List (String × String)))
    (pu : Except Unit (List (String × StreamInfo))) : MonitorState × List Intent :=
  let names := allChannels st.watchlists
  let r := get_user_ids st.cache names ru
  match r.2 with
  | .error _ => ({ st with cache := r.1 }, [])
  | .ok m =>
    match get_live_streams (m.map Prod.snd) pu with
    | .error _ => ({ st with cache := r.1 }, [])
    | .ok live_data =>
      let cur := currentLive live_data
      ({ st with cache := r.1, live_status := cur },
       checkChanges st.watchlists m st.live_status cur live_data)

/-- One timer tick's upstream responses: the users request and the
streams request of that iteration. -/
abbrev TickEvents :=
  Except Unit (List (String × String)) × Except Unit (List (String × StreamInfo))

/-- `monitor_twitch` (`bot.py` 100-151) over a finite trace of ticks.
`get_app_token()` runs before the `while True:` loop and outside any
`try`, so an exception raised there escapes the function and terminates
the monitor thread (`none`); once the token is obtained, every iteration
wraps its whole body in `try/except`, so each tick maps the state through
`runCycle` whatever its upstream failures, and the loop reaches the end
of the trace. -/
def monitor_twitch (tokenRes : Except Unit String) (st : MonitorState)
    (ticks : List TickEvents) : Option MonitorState :=
  match tokenRes with
  | .error _ => none
  | .ok _ => some (ticks.foldl (fun s e => (runCycle s e.1 e.2).1) st)

/-- The cycle notified subscriber `chat` about channel `ch` with a
notification of kind `k`. -/
def emits (ints : List Intent) (chat ch : String) (k : Transition) : Prop :=
  ∃ i ∈ ints, i.chat_id = chat ∧ i.channel = ch ∧ i.kind = k

/-- The outcome of one `/add` command (`bot.py` 173-211): the three
globals the handler may touch, whether `save_watchlists` ran, and the
immediate notifications sent. -/
structure AddResult where
  watchlists : Watchlists
  cache : Cache
  live_status : Snapshot
  saved : Bool
  intents : List Intent
deriving DecidableEq

/-- `watchlists.setdefault(chat_id, {"channels": [], "apprise_urls": []})`
(`bot.py` 181 and 277); also the body of `/start` (`bot.py` 157-159). -/
def setdefaultW (w : Watchlists) (chat_id : String) : Watchlists :=
  if (dget w chat_id).isSome then w else w ++ [(chat_id, ⟨[], []⟩)]

/-- In-place mutation of one subscriber's record
(`watchlists[chat_id][...] = ...`). -/
def updateSub (w : Watchlists) (chat_id : String)
    (f : Subscription → Subscription) : Watchlists :=
  w.map fun p => if p.1 = chat_id then (p.1, f p.2) else p

/-- `add_channel` (`bot.py` 173-211) for a single-argument `/add`:
lowercase the argument, create the subscriber's record if absent, and —
when the channel is not already watched — append it, persist, and run
the immediate live check. The check's token request, users lookup and
streams poll outcomes are `tokenRes`, `ru` and `pu`; every exception
raised in the check is caught by the handler's local `try/except`
(`bot.py` 190-208), leaving the already-updated watchlist in place. -/
def add_channel (st : MonitorState) (chat_id arg : String)
    (tokenRes : Except Unit String)
    (ru : Except Unit (List (String × String)))
    (pu : Except Unit (List (String × StreamInfo))) : AddResult :=
  let channel := pyLower arg
  let w := setdefaultW st.watchlists chat_id
  let sub := (dget w chat_id).getD ⟨[], []⟩
  if channel ∈ sub.channels then
    ⟨w, st.cache, st.live_status, false, []⟩
  else
    let w' := updateSub w chat_id fun s => { s with channels := s.channels ++ [channel] }
    match tokenRes with
    | .error _ => ⟨w', st.cache, st.live_status, true, []⟩
    | .ok _ =>
      let r := get_user_ids st.cache [channel] ru
      match r.2 with
      | .error _ => ⟨w', r.1, st.live_status, true, []⟩
      | .ok m =>
        match dget m channel with
        | none => ⟨w', r.1, st.live_status, true, []⟩
        | some uid =>
          if uid = "" then ⟨w', r.1, st.live_status, true, []⟩
          else
            match get_live_streams [uid] pu with
            | .error _ => ⟨w', r.1, st.live_status, true, []⟩
            | .ok ld =>
              match dget ld uid with
              | none => ⟨w', r.1, st.live_status, true, []⟩
              | some s =>
                ⟨w', r.1, dset st.live_status uid true, true,
                  [alreadyLiveIntent chat_id channel s]⟩

/-- `remove_channel` (`bot.py` 213-226): drop the first occurrence of the
lowercased channel when the subscriber watches it. -/
def remove_channel (w : Watchlists) (chat_id arg : String) : Watchlists :=
  let channel := pyLower arg
  match dget w chat_id with
  | some sub =>
    if channel ∈ sub.channels then
      updateSub w chat_id fun s => { s with channels := s.channels.erase channel }
    else w
  | none => w

/-- The saving branch of `confirm_apprise` (`bot.py` 277-281): create the
record if absent and append the pending URL unless an exact-match
duplicate is already stored. -/
def confirm_apprise (w : Watchlists) (chat_id url : String) : Watchlists :=
  let w' := setdefaultW w chat_id
  if url ∈ ((dget w' chat_id).getD ⟨[], []⟩).apprise_urls then w'
  else updateSub w' chat_id fun s => { s with apprise_urls := s.apprise_urls ++ [url] }

/-- `remove_apprise` (`bot.py` 306-327): pop the 1-based `index` from the
subscriber's URL list when it is in range, else reject the request. -/
def remove_apprise (w : Watchlists) (chat_id : String) (index : Nat) : Watchlists :=
  let urls := ((dget w chat_id).getD ⟨[], []⟩).apprise_urls
  if index < 1 ∨ index > urls.length then w
  else updateSub w chat_id fun s =>
    { s with apprise_urls := s.apprise_urls.eraseIdx (index - 1) }

/-- The subscription-store invariant of the spec's data model: unique
chat ids (python dict keys), and per subscriber a duplicate-free channel
list and a duplicate-free (by exact string match) target list. -/
def storeInv (w : Watchlists) : Prop :=
  (w.map Prod.fst).Nodup ∧ ∀ p ∈ w, p.2.channels.Nodup ∧ p.2.apprise_urls.Nodup

/-! ## Basic lemmas about the embedded operations -/

/-- Updating a key makes it readable: python `d[k] = v` then `d.get(k)`. -/
theorem dget_dset_self {α : Type} (l : List (String × α)) (k : String) (v : α) :
    dget (dset l k v) k = some v := by
  induction l with
  | nil => simp [dset, dget]
  | cons p rest ih =>
    by_cases h : p.1 = k
    · simp [dset, dget, h]
    · simp [dset, dget, h, ih]

/-- Lookup walks past a prefix that misses the key. -/
theorem dget_append_of_none {α : Type} {l₁ : List (String × α)} {k : String}
    (h : dget l₁ k = none) (l₂ : List (String × α)) :
    dget (l₁ ++ l₂) k = dget l₂ k := by
  induction l₁ with
  | nil => rfl
  | cons p rest ih =>
    by_cases hp : p.1 = k
    · simp [dget, hp] at h
    · simp only [List.cons_append, dget, if_neg hp] at h ⊢
      exact ih h

/-- A key with unique bindings determines its value. -/
theorem keys_nodup_unique {α : Type} {w : List (String × α)}
    (h : (w.map Prod.fst).Nodup) {c : String} {a b : α}
    (ha : (c, a) ∈ w) (hb : (c, b) ∈ w) : a = b := by
  induction w with
  | nil => cases ha
  | cons p rest ih =>
    rw [List.map_cons, List.nodup_cons] at h
    rcases List.mem_cons.mp ha with ha | ha <;> rcases List.mem_cons.mp hb with hb | hb
    · exact congrArg Prod.snd (ha.trans hb.symm)
    · have hm : c ∈ rest.map Prod.fst := List.mem_map_of_mem Prod.fst hb
      have hp1 : p.1 = c := by rw [← ha]
      rw [hp1] at h
      exact absurd hm h.1
    · have hm : c ∈ rest.map Prod.fst := List.mem_map_of_mem Prod.fst ha
      have hp1 : p.1 = c := by rw [← hb]
      rw [hp1] at h
      exact absurd hm h.1
    · exact ih h.2 ha hb

/-- A successful lookup exhibits a member. -/
theorem dget_mem {α : Type} {l : List (String × α)} {k : String} {v : α}
    (h : dget l k = some v) : (k, v) ∈ l := by
  induction l with
  | nil => simp [dget] at h
  | cons p rest ih =>
    by_cases hp : p.1 = k
    · simp only [dget, if_pos hp, Option.some_inj] at h
      rw [← hp, ← h]
      exact List.mem_cons_self _ _
    · simp only [dget, if_neg hp] at h
      exact List.mem_cons_of_mem _ (ih h)

/-- A miss means the key is bound nowhere. -/
theorem dget_eq_none_iff_keys {α : Type} {l : List (String × α)} {k : String} :
    dget l k = none ↔ k ∉ l.map Prod.fst := by
  induction l with
  | nil => simp [dget]
  | cons p rest ih =>
    by_cases hp : p.1 = k
    · simp [dget, hp]
    · simp [dget, hp, ih, Ne.symm hp]

/-- After `setdefault`, the key reads its old value or the fresh empty
record. -/
theorem dget_setdefaultW_self (w : Watchlists) (c : String) :
    dget (setdefaultW w c) c = some ((dget w c).getD ⟨[], []⟩) := by
  unfold setdefaultW
  rcases h : dget w c with - | sub
  · rw [if_neg (by simp [h]), dget_append_of_none h]
    simp [dget]
  · rw [if_pos (by simp [h]), h]
    rfl

/-- Reading back the updated subscriber. -/
theorem dget_updateSub_self (w : Watchlists) (c : String)
    (f : Subscription → Subscription) :
    dget (updateSub w c f) c = (dget w c).map f := by
  induction w with
  | nil => rfl
  | cons p rest ih =>
    unfold updateSub at ih ⊢
    by_cases h : p.1 = c
    · simp [dget, h]
    · simp [dget, h, ih]

/-- `updateSub` never touches the key column. -/
theorem updateSub_keys (w : Watchlists) (c : String)
    (f : Subscription → Subscription) :
    (updateSub w c f).map Prod.fst = w.map Prod.fst := by
  induction w with
  | nil => rfl
  | cons p rest ih =>
    unfold updateSub at ih ⊢
    by_cases h : p.1 = c <;> simp [h, ih]

/-- An entry of `updateSub w c f` is either an untouched entry of `w` or
the image under `f` of an entry keyed `c`. -/
theorem mem_updateSub {w : Watchlists} {c : String}
    {f : Subscription → Subscription} {p : String × Subscription}
    (hp : p ∈ updateSub w c f) :
    p ∈ w ∨ ∃ s, (c, s) ∈ w ∧ p = (c, f s) := by
  unfold updateSub at hp
  rcases List.mem_map.mp hp with ⟨q, hq, rfl⟩
  by_cases h : q.1 = c
  · subst h
    exact Or.inr ⟨q.2, hq, by simp⟩
  · rw [if_neg h]
    exact Or.inl hq

/-- `checkChanges` membership unfolds to a subscriber entry and a watched
channel whose `decideIntent` produced the notification. -/
theorem mem_checkChanges {w : Watchlists} {m : List (String × String)}
    {prev cur : Snapshot} {ld : List (String × StreamInfo)} {i : Intent} :
    i ∈ checkChanges w m prev cur ld ↔
      ∃ p ∈ w, ∃ u ∈ p.2.channels, decideIntent p.1 u m prev cur ld = some i := by
  simp [checkChanges, List.mem_flatMap, List.mem_filterMap]

/-- Any notification produced by `decideIntent` carries the chat id and
username it was computed for, and is one of the two transition kinds. -/
theorem decideIntent_chat_channel {c u : String} {m : List (String × String)}
    {prev cur : Snapshot} {ld : List (String × StreamInfo)} {i : Intent}
    (h : decideIntent c u m prev cur ld = some i) :
    i.chat_id = c ∧ i.channel = u ∧ (i.kind = .wentLive ∨ i.kind = .wentOffline) := by
  unfold decideIntent at h
  split at h
  · exact absurd h (by simp)
  · split at h
    · exact absurd h (by simp)
    · dsimp only at h
      split at h
      · rw [Option.some_inj] at h
        subst h
        exact ⟨rfl, rfl, Or.inl rfl⟩
      · split at h
        · rw [Option.some_inj] at h
          subst h
          exact ⟨rfl, rfl, Or.inr rfl⟩
        · exact absurd h (by simp)

/-- When the channel's name resolves to a truthy id, `decideIntent`
reduces to the two snapshot comparisons of `bot.py` 131-145. -/
theorem decideIntent_eq {c u uid : String} {m : List (String × String)}
    {prev cur : Snapshot} {ld : List (String × StreamInfo)}
    (hm : dget m (pyLower u) = some uid) (h0 : uid ≠ "") :
    decideIntent c u m prev cur ld =
      if snapGetD cur uid && !snapGetD prev uid then
        some (liveIntent c u ((dget ld uid).getD ⟨"", "", 0⟩))
      else if !snapGetD cur uid && snapGetD prev uid then
        some (offlineIntent c u)
      else none := by
  unfold decideIntent
  rw [hm]
  simp [h0]

/-- A notification for `(chat, username)` appears in the cycle's output
exactly when `decideIntent` for that pair produces it: which subscription
entry it came from is irrelevant, since the notification records both. -/
theorem emits_decideIntent {w : Watchlists} {m : List (String × String)}
    {prev cur : Snapshot} {ld : List (String × StreamInfo)}
    {chat username : String} {k : Transition}
    (h : emits (checkChanges w m prev cur ld) chat username k) :
    ∃ i, decideIntent chat username m prev cur ld = some i ∧ i.kind = k := by
  rcases h with ⟨i, hi, hc, hn, hk⟩
  rcases mem_checkChanges.mp hi with ⟨p, _, u, _, hd⟩
  obtain ⟨h1, h2, -⟩ := decideIntent_chat_channel hd
  rw [hc] at h1
  rw [hn] at h2
  rw [h1, h2]
  exact ⟨i, hd, hk⟩

/-- Converse packaging of `emits_decideIntent` for a pair the store
actually watches. -/
theorem emits_checkChanges_iff {w : Watchlists} (m : List (String × String))
    (prev cur : Snapshot) (ld : List (String × StreamInfo))
    {chat : String} {sub : Subscription} {username : String}
    (hw : (chat, sub) ∈ w) (hch : username ∈ sub.channels) (k : Transition) :
    emits (checkChanges w m prev cur ld) chat username k ↔
      ∃ i, decideIntent chat username m prev cur ld = some i ∧ i.kind = k := by
  constructor
  · exact emits_decideIntent
  · rintro ⟨i, hd, hk⟩
    obtain ⟨h1, h2, -⟩ := decideIntent_chat_channel hd
    exact ⟨i, mem_checkChanges.mpr ⟨(chat, sub), hw, username, hch, hd⟩, h1, h2, hk⟩

/-- Seeding a snapshot entry makes it read back. -/
theorem snapGetD_dset_self (l : Snapshot) (k : String) (v : Bool) :
    snapGetD (dset l k v) k = v := by
  simp [snapGetD, dget_dset_self]

/-- When both upstream calls succeed, a cycle is exactly: swap in the
poll-derived snapshot, keep the updated cache, and emit the diff of the
old snapshot against the new. -/
theorem runCycle_ok {st : MonitorState} {ru : Except Unit (List (String × String))}
    {pu : Except Unit (List (String × StreamInfo))} {c₁ : Cache}
    {m : List (String × String)} {ld : List (String × StreamInfo)}
    (h1 : get_user_ids st.cache (allChannels st.watchlists) ru = (c₁, .ok m))
    (h2 : get_live_streams (m.map Prod.snd) pu = .ok ld) :
    runCycle st ru pu =
      ({ st with cache := c₁, live_status := currentLive ld },
        checkChanges st.watchlists m st.live_status (currentLive ld) ld) := by
  simp only [runCycle, h1, h2]

/-! ## C1: transition notifications fire exactly on snapshot changes -/

/-- The diff loop emits a went-live notification for a watched, resolved
pair iff the previous snapshot reads `false` and the current one `true`;
went-offline iff the reverse; nothing when the snapshots agree. -/
theorem checkChanges_transition_iff
    (w : Watchlists) (m : List (String × String)) (prev cur : Snapshot)
    (ld : List (String × StreamInfo)) (chat : String) (sub : Subscription)
    (username uid : String)
    (hw : (chat, sub) ∈ w)
    (hch : username ∈ sub.channels)
    (hres : dget m (pyLower username) = some uid)
    (huid : uid ≠ "") :
    (emits (checkChanges w m prev cur ld) chat username .wentLive ↔
        snapGetD prev uid = false ∧ snapGetD cur uid = true) ∧
    (emits (checkChanges w m prev cur ld) chat username .wentOffline ↔
        snapGetD prev uid = true ∧ snapGetD cur uid = false) ∧
    (snapGetD prev uid = snapGetD cur uid →
        ∀ k, ¬ emits (checkChanges w m prev cur ld) chat username k) := by
  have hkey := fun k => emits_checkChanges_iff m prev cur ld hw hch k
  refine ⟨?_, ?_, ?_⟩
  · rw [hkey, decideIntent_eq hres huid]
    cases hp : snapGetD prev uid <;> cases hq : snapGetD cur uid <;>
      simp [liveIntent, offlineIntent]
  · rw [hkey, decideIntent_eq hres huid]
    cases hp : snapGetD prev uid <;> cases hq : snapGetD cur uid <;>
      simp [liveIntent, offlineIntent]
  · intro heq k
    rw [hkey, decideIntent_eq hres huid]
    cases hp : snapGetD prev uid <;> cases hq : snapGetD cur uid <;>
      rw [hp, hq] at heq <;> simp_all

/-- **C1.** In a cycle whose resolution and poll both succeed, for every
subscriber and watched channel whose name resolved to a (truthy) id, the
cycle emits a went-live notification for the pair iff the previous
snapshot reads `false` (absent included) at that id and the current
poll-derived snapshot reads `true`; a went-offline notification iff the
previous reads `true` and the current `false`; and no notification at
all for the pair when the two snapshots agree. -/
theorem transition_intent_iff
    (st : MonitorState) (ru : Except Unit (List (String × String)))
    (pu : Except Unit (List (String × StreamInfo))) (c₁ : Cache)
    (m : List (String × String)) (ld : List (String × StreamInfo))
    (chat : String) (sub : Subscription) (username uid : String)
    (h1 : get_user_ids st.cache (allChannels st.watchlists) ru = (c₁, .ok m))
    (h2 : get_live_streams (m.map Prod.snd) pu = .ok ld)
    (hw : (chat, sub) ∈ st.watchlists)
    (hch : username ∈ sub.channels)
    (hres : dget m (pyLower username) = some uid)
    (huid : uid ≠ "") :
    (emits (runCycle st ru pu).2 chat username .wentLive ↔
        snapGetD st.live_status uid = false ∧ snapGetD (currentLive ld) uid = true) ∧
    (emits (runCycle st ru pu).2 chat username .wentOffline ↔
        snapGetD st.live_status uid = true ∧ snapGetD (currentLive ld) uid = false) ∧
    (snapGetD st.live_status uid = snapGetD (currentLive ld) uid →
        ∀ k, ¬ emits (runCycle st ru pu).2 chat username k) := by
  rw [runCycle_ok h1 h2]
  exact checkChanges_transition_iff st.watchlists m st.live_status (currentLive ld)
    ld chat sub username uid hw hch hres huid

/-- Concrete run of `transition_intent_iff`: one subscriber watching
`alice`, resolved to id `1`, previously offline and now live. -/
theorem transition_intent_iff_witness :
    get_user_ids ([] : Cache) (allChannels [("c", Subscription.mk ["alice"] [])])
        (.ok [("alice", "1")]) = ([("alice", "1")], .ok [("alice", "1")]) ∧
    get_live_streams ([("alice", "1")].map Prod.snd)
        (.ok [("1", StreamInfo.mk "t" "g" 5)]) = .ok [("1", StreamInfo.mk "t" "g" 5)] ∧
    ("c", Subscription.mk ["alice"] []) ∈ ([("c", Subscription.mk ["alice"] [])] : Watchlists) ∧
    "alice" ∈ ["alice"] ∧
    dget [("alice", "1")] (pyLower "alice") = some "1" ∧
    "1" ≠ "" ∧
    ((emits (runCycle ⟨[("c", Subscription.mk ["alice"] [])], [], []⟩
          (.ok [("alice", "1")]) (.ok [("1", StreamInfo.mk "t" "g" 5)])).2
        "c" "alice" .wentLive ↔
        snapGetD [] "1" = false ∧
          snapGetD (currentLive [("1", StreamInfo.mk "t" "g" 5)]) "1" = true) ∧
      (emits (runCycle ⟨[("c", Subscription.mk ["alice"] [])], [], []⟩
          (.ok [("alice", "1")]) (.ok [("1", StreamInfo.mk "t" "g" 5)])).2
        "c" "alice" .wentOffline ↔
        snapGetD [] "1" = true ∧
          snapGetD (currentLive [("1", StreamInfo.mk "t" "g" 5)]) "1" = false) ∧
      (snapGetD [] "1" = snapGetD (currentLive [("1", StreamInfo.mk "t" "g" 5)]) "1" →
        ∀ k, ¬ emits (runCycle ⟨[("c", Subscription.mk ["alice"] [])], [], []⟩
          (.ok [("alice", "1")]) (.ok [("1", StreamInfo.mk "t" "g" 5)])).2
          "c" "alice" k)) :=
  ⟨rfl, rfl, by decide, by decide, by decide, by decide,
    transition_intent_iff ⟨[("c", Subscription.mk ["alice"] [])], [], []⟩
      (.ok [("alice", "1")]) (.ok [("1", StreamInfo.mk "t" "g" 5)])
      [("alice", "1")] [("alice", "1")] [("1", StreamInfo.mk "t" "g" 5)]
      "c" (Subscription.mk ["alice"] []) "alice" "1"
      rfl rfl (by decide) (by decide) (by decide) (by decide)⟩

/-! ## C2: an upstream failure skips the cycle without touching state -/

/-- **C2.** If resolving names fails, or resolving succeeds and polling
live state fails, the cycle emits no notifications and leaves
`live_status` (and the watchlists) exactly as they were; the next cycle
therefore diffs against this unchanged snapshot. -/
theorem failed_cycle_preserves_state
    (st : MonitorState) (ru : Except Unit (List (String × String)))
    (pu : Except Unit (List (String × StreamInfo)))
    (h : (get_user_ids st.cache (allChannels st.watchlists) ru).2 = .error () ∨
         ∃ m, (get_user_ids st.cache (allChannels st.watchlists) ru).2 = .ok m ∧
           get_live_streams (m.map Prod.snd) pu = .error ()) :
    (runCycle st ru pu).2 = [] ∧
    (runCycle st ru pu).1.live_status = st.live_status ∧
    (runCycle st ru pu).1.watchlists = st.watchlists := by
  rcases h with h | ⟨m, h1, h2⟩
  · simp [runCycle, h]
  · simp [runCycle, h1, h2]

/-- Concrete run of `failed_cycle_preserves_state`: one watched channel,
an empty resolver cache, and a failing users request; the prior snapshot
`{1: true}` survives the failed cycle. -/
theorem failed_cycle_preserves_state_witness :
    ((get_user_ids ([] : Cache)
        (allChannels [("c", Subscription.mk ["alice"] [])]) (.error ())).2 = .error () ∨
      ∃ m, (get_user_ids ([] : Cache)
          (allChannels [("c", Subscription.mk ["alice"] [])]) (.error ())).2 = .ok m ∧
        get_live_streams (m.map Prod.snd) (.ok []) = .error ()) ∧
    ((runCycle ⟨[("c", Subscription.mk ["alice"] [])], [], [("1", true)]⟩
        (.error ()) (.ok [])).2 = [] ∧
      (runCycle ⟨[("c", Subscription.mk ["alice"] [])], [], [("1", true)]⟩
        (.error ()) (.ok [])).1.live_status = [("1", true)] ∧
      (runCycle ⟨[("c", Subscription.mk ["alice"] [])], [], [("1", true)]⟩
        (.error ()) (.ok [])).1.watchlists = [("c", Subscription.mk ["alice"] [])]) :=
  ⟨Or.inl rfl,
    failed_cycle_preserves_state ⟨[("c", Subscription.mk ["alice"] [])], [], [("1", true)]⟩
      (.error ()) (.ok []) (Or.inl rfl)⟩

/-! ## C3: a second cycle with identical poll results emits nothing -/

/-- Diffing a snapshot against itself never yields a notification. -/
theorem decideIntent_refl_none (c u : String) (m : List (String × String))
    (s : Snapshot) (ld : List (String × StreamInfo)) :
    decideIntent c u m s s ld = none := by
  unfold decideIntent
  rcases hm : dget m (pyLower u) with - | uid
  · rfl
  · by_cases h0 : uid = "" <;> simp [h0]

/-- A whole cycle diffing a snapshot against itself emits nothing. -/
theorem checkChanges_refl_nil (w : Watchlists) (m : List (String × String))
    (s : Snapshot) (ld : List (String × StreamInfo)) :
    checkChanges w m s s ld = [] := by
  refine List.eq_nil_iff_forall_not_mem.mpr fun i hi => ?_
  rcases mem_checkChanges.mp hi with ⟨p, -, u, -, hd⟩
  rw [decideIntent_refl_none] at hd
  exact Option.noConfusion hd

/-- **C3.** Two consecutive successful cycles with identical poll
results: the first produces exactly the diff of the old snapshot against
the poll, and the second — whose current snapshot equals the first's —
emits zero notifications. -/
theorem second_identical_cycle_no_intents
    (st : MonitorState) (ru ru' : Except Unit (List (String × String)))
    (pu pu' : Except Unit (List (String × StreamInfo)))
    (c₁ c₂ : Cache) (m₁ m₂ : List (String × String)) (ld : List (String × StreamInfo))
    (h1 : get_user_ids st.cache (allChannels st.watchlists) ru = (c₁, .ok m₁))
    (h2 : get_live_streams (m₁.map Prod.snd) pu = .ok ld)
    (h3 : get_user_ids c₁ (allChannels st.watchlists) ru' = (c₂, .ok m₂))
    (h4 : get_live_streams (m₂.map Prod.snd) pu' = .ok ld) :
    (runCycle st ru pu).2 =
      checkChanges st.watchlists m₁ st.live_status (currentLive ld) ld ∧
    (runCycle (runCycle st ru pu).1 ru' pu').2 = [] := by
  have hst : runCycle st ru pu =
      ({ st with cache := c₁, live_status := currentLive ld },
        checkChanges st.watchlists m₁ st.live_status (currentLive ld) ld) := by
    simp only [runCycle, h1, h2]
  refine ⟨by rw [hst], ?_⟩
  rw [hst]
  simp only [runCycle, h3, h4]
  exact checkChanges_refl_nil _ _ _ _

/-- Concrete run of `second_identical_cycle_no_intents`: `alice` goes
live in cycle one and stays live in cycle two; the second cycle is
silent. -/
theorem second_identical_cycle_no_intents_witness :
    get_user_ids ([] : Cache) (allChannels [("c", Subscription.mk ["alice"] [])])
        (.ok [("alice", "1")]) = ([("alice", "1")], .ok [("alice", "1")]) ∧
    get_live_streams ([("alice", "1")].map Prod.snd)
        (.ok [("1", StreamInfo.mk "t" "g" 5)]) = .ok [("1", StreamInfo.mk "t" "g" 5)] ∧
    get_user_ids [("alice", "1")] (allChannels [("c", Subscription.mk ["alice"] [])])
        (.error ()) = ([("alice", "1")], .ok [("alice", "1")]) ∧
    get_live_streams ([("alice", "1")].map Prod.snd)
        (.ok [("1", StreamInfo.mk "t" "g" 5)]) = .ok [("1", StreamInfo.mk "t" "g" 5)] ∧
    ((runCycle ⟨[("c", Subscription.mk ["alice"] [])], [], []⟩
        (.ok [("alice", "1")]) (.ok [("1", StreamInfo.mk "t" "g" 5)])).2 =
      checkChanges [("c", Subscription.mk ["alice"] [])] [("alice", "1")] []
        (currentLive [("1", StreamInfo.mk "t" "g" 5)]) [("1", StreamInfo.mk "t" "g" 5)] ∧
    (runCycle (runCycle ⟨[("c", Subscription.mk ["alice"] [])], [], []⟩
        (.ok [("alice", "1")]) (.ok [("1", StreamInfo.mk "t" "g" 5)])).1
        (.error ()) (.ok [("1", StreamInfo.mk "t" "g" 5)])).2 = []) :=
  ⟨rfl, rfl, rfl, rfl,
    second_identical_cycle_no_intents
      ⟨[("c", Subscription.mk ["alice"] [])], [], []⟩
      (.ok [("alice", "1")]) (.error ())
      (.ok [("1", StreamInfo.mk "t" "g" 5)]) (.ok [("1", StreamInfo.mk "t" "g" 5)])
      [("alice", "1")] [("alice", "1")] [("alice", "1")] [("alice", "1")]
      [("1", StreamInfo.mk "t" "g" 5)] rfl rfl rfl rfl⟩

/-! ## C7: a failed batch lookup mutates nothing -/

/-- **C7.** When some watched name is missing from the cache (so an
upstream batch lookup actually happens) and that lookup raises, the whole
`get_user_ids` call propagates the exception and returns the cache
exactly as it was: no partial mutation. -/
theorem resolve_failure_no_cache_mutation
    (cache : Cache) (usernames : List String)
    (h : ((usernames.map pyLower).filter fun u => (dget cache u).isNone) ≠ []) :
    get_user_ids cache usernames (.error ()) = (cache, .error ()) := by
  have hfe : ((usernames.map pyLower).filter fun u => (dget cache u).isNone).isEmpty = false := by
    simpa [List.isEmpty_iff] using h
  simp [get_user_ids, hfe]

/-- Concrete run of `resolve_failure_no_cache_mutation`: empty cache,
one unresolved name, failing users request. -/
theorem resolve_failure_no_cache_mutation_witness :
    ((["alice"].map pyLower).filter fun u => (dget ([] : Cache) u).isNone) ≠ [] ∧
    get_user_ids ([] : Cache) ["alice"] (.error ()) = ([], .error ()) :=
  ⟨by decide, resolve_failure_no_cache_mutation [] ["alice"] (by decide)⟩

/-! ## C6: the polled set is the union of all watchlists -/

/-- On success, the name-to-id mapping a cycle works with consists of the
lowercased requested names paired with their post-call cache entries. -/
theorem get_user_ids_ok_map (cache : Cache) (usernames : List String)
    (ru : Except Unit (List (String × String))) (c' : Cache)
    (m : List (String × String))
    (h : get_user_ids cache usernames ru = (c', .ok m)) :
    m = (usernames.map pyLower).filterMap fun u => (dget c' u).map fun i => (u, i) := by
  unfold get_user_ids at h
  by_cases hfe : ((usernames.map pyLower).filter fun u => (dget cache u).isNone).isEmpty
  · rw [if_pos hfe, Prod.mk.injEq] at h
    obtain ⟨rfl, h2⟩ := h
    rw [Except.ok.injEq] at h2
    exact h2.symm
  · rw [if_neg hfe] at h
    cases ru with
    | error e => exact absurd h (by simp)
    | ok data =>
      rw [Prod.mk.injEq] at h
      obtain ⟨rfl, h2⟩ := h
      rw [Except.ok.injEq] at h2
      exact h2.symm

/-- **C6.** In a cycle whose resolution step succeeds, the name-to-id
map driving the poll and the diff contains a pair `(name, uid)` exactly
when some subscriber's watchlist, as read at the start of the cycle,
contains a channel lowercasing to `name`, and the resolver cache after
the call maps `name` to `uid`: the polled set is the union of all
subscribers' watched channels, not a fixed list. -/
theorem polled_channels_eq_union
    (st : MonitorState) (ru : Except Unit (List (String × String)))
    (c' : Cache) (m : List (String × String))
    (h : get_user_ids st.cache (allChannels st.watchlists) ru = (c', .ok m))
    (name uid : String) :
    (name, uid) ∈ m ↔
      ((∃ p ∈ st.watchlists, ∃ ch ∈ p.2.channels, pyLower ch = name) ∧
        dget c' name = some uid) := by
  rw [get_user_ids_ok_map _ _ _ _ _ h]
  simp only [List.mem_filterMap, List.mem_map, allChannels, List.mem_flatMap,
    Option.map_eq_some', Prod.mk.injEq]
  constructor
  · rintro ⟨u, ⟨ch, ⟨p, hp, hpch⟩, rfl⟩, i, hi, rfl, rfl⟩
    exact ⟨⟨p, hp, ch, hpch, rfl⟩, hi⟩
  · rintro ⟨⟨p, hp, ch, hch, rfl⟩, hd⟩
    exact ⟨pyLower ch, ⟨ch, ⟨p, hp, hch⟩, rfl⟩, uid, hd, rfl, rfl⟩

/-- Concrete run of `polled_channels_eq_union`: the single watched
channel `alice` resolves to id `1` and is exactly what gets polled. -/
theorem polled_channels_eq_union_witness :
    get_user_ids ([] : Cache) (allChannels [("c", Subscription.mk ["alice"] [])])
        (.ok [("alice", "1")]) = ([("alice", "1")], .ok [("alice", "1")]) ∧
    (("alice", "1") ∈ [("alice", "1")] ↔
      ((∃ p ∈ [("c", Subscription.mk ["alice"] [])],
          ∃ ch ∈ p.2.channels, pyLower ch = "alice") ∧
        dget [("alice", "1")] "alice" = some "1")) :=
  ⟨rfl,
    polled_channels_eq_union ⟨[("c", Subscription.mk ["alice"] [])], [], []⟩
      (.ok [("alice", "1")]) [("alice", "1")] [("alice", "1")] rfl "alice" "1"⟩

/-! ## C4: error fatality of the monitor thread -/

/-- **C4 counterexample.** `get_app_token()` at `bot.py` line 102 runs
before the `while True:` loop and outside any `try`: when that request
raises, the exception escapes `monitor_twitch` and the monitor thread
terminates without processing a single timer tick — refuting the claim
that errors raised while obtaining the initial bearer token are logged
and survived like every other error. -/
theorem initial_token_failure_kills_monitor :
    monitor_twitch (.error ()) ⟨[], [], []⟩ [(.ok [], .ok [])] = none := rfl

/-- **C4 (amended).** Every error raised inside the polling loop is
caught by its `try/except`: once the initial bearer token has been
obtained, the monitor survives any trace of upstream outcomes, mapping
the state through `runCycle` on each tick and continuing to the next;
only a failure obtaining the initial token, which happens before the
loop, terminates the monitor thread. -/
theorem monitor_loop_never_dies_after_token (tok : String) (st : MonitorState)
    (ticks : List TickEvents) :
    monitor_twitch (.ok tok) st ticks =
      some (ticks.foldl (fun s e => (runCycle s e.1 e.2).1) st) := rfl

/-! ## C9: the channel is persisted before the immediate check -/

/-- Adding a genuinely new channel always updates and saves the
watchlist, whatever the immediate live check does afterwards
(`bot.py` 183-186 run before the `try` of 190-208). -/
theorem add_channel_watchlists (st : MonitorState) (chat_id arg : String)
    (tokenRes : Except Unit String)
    (ru : Except Unit (List (String × String)))
    (pu : Except Unit (List (String × StreamInfo)))
    (hnew : pyLower arg ∉ ((dget st.watchlists chat_id).getD ⟨[], []⟩).channels) :
    (add_channel st chat_id arg tokenRes ru pu).watchlists =
      updateSub (setdefaultW st.watchlists chat_id) chat_id
        (fun s => { s with channels := s.channels ++ [pyLower arg] }) ∧
    (add_channel st chat_id arg tokenRes ru pu).saved = true := by
  simp only [add_channel, dget_setdefaultW_self, Option.getD_some, if_neg hnew]
  repeat' split
  all_goals exact ⟨rfl, rfl⟩

/-- **C9.** When the channel is not yet watched, it is appended to the
watchlist and persisted before the immediate live check runs, and any
failure of that check is caught locally: for every outcome of the token
request, users lookup and streams poll — including failures — the handler
reports a save and the channel is on the stored watchlist afterwards. -/
theorem add_channel_persists_despite_check_failure
    (st : MonitorState) (chat_id arg : String)
    (tokenRes : Except Unit String)
    (ru : Except Unit (List (String × String)))
    (pu : Except Unit (List (String × StreamInfo)))
    (hnew : pyLower arg ∉ ((dget st.watchlists chat_id).getD ⟨[], []⟩).channels) :
    (add_channel st chat_id arg tokenRes ru pu).watchlists =
      updateSub (setdefaultW st.watchlists chat_id) chat_id
        (fun s => { s with channels := s.channels ++ [pyLower arg] }) ∧
    (add_channel st chat_id arg tokenRes ru pu).saved = true ∧
    pyLower arg ∈
      ((dget (add_channel st chat_id arg tokenRes ru pu).watchlists chat_id).getD
        ⟨[], []⟩).channels := by
  obtain ⟨h1, h2⟩ := add_channel_watchlists st chat_id arg tokenRes ru pu hnew
  refine ⟨h1, h2, ?_⟩
  rw [h1, dget_updateSub_self, dget_setdefaultW_self]
  simp

/-- Concrete run of `add_channel_persists_despite_check_failure`: the
token request fails, yet `carol` is saved to the watchlist. -/
theorem add_channel_persists_despite_check_failure_witness :
    pyLower "carol" ∉ ((dget ([] : Watchlists) "c").getD ⟨[], []⟩).channels ∧
    ((add_channel ⟨[], [], []⟩ "c" "carol" (.error ()) (.ok []) (.ok [])).watchlists =
      updateSub (setdefaultW [] "c") "c"
        (fun s => { s with channels := s.channels ++ [pyLower "carol"] }) ∧
    (add_channel ⟨[], [], []⟩ "c" "carol" (.error ()) (.ok []) (.ok [])).saved = true ∧
    pyLower "carol" ∈
      ((dget (add_channel ⟨[], [], []⟩ "c" "carol" (.error ()) (.ok []) (.ok [])).watchlists
        "c").getD ⟨[], []⟩).channels) :=
  ⟨by decide,
    add_channel_persists_despite_check_failure ⟨[], [], []⟩ "c" "carol" (.error ())
      (.ok []) (.ok []) (by decide)⟩

/-! ## C5: adding a live channel notifies once and seeds the snapshot -/

/-- **C5.** Adding a not-yet-watched channel that is live at add-time
sends exactly one immediate "already LIVE" notification and seeds the
shared snapshot with `live_status[uid] = True`; consequently any later
cycle whose resolution still maps the channel to `uid` and whose current
snapshot still shows `uid` live emits no notification at all for this
(subscriber, channel) pair. -/
theorem add_live_channel_notifies_once_and_seeds
    (st : MonitorState) (chat_id arg tok : String)
    (ru : Except Unit (List (String × String)))
    (pu : Except Unit (List (String × StreamInfo)))
    (c₁ : Cache) (m : List (String × String)) (uid : String)
    (ld : List (String × StreamInfo)) (s : StreamInfo)
    (hnew : pyLower arg ∉ ((dget st.watchlists chat_id).getD ⟨[], []⟩).channels)
    (hres : get_user_ids st.cache [pyLower arg] ru = (c₁, .ok m))
    (huid : dget m (pyLower arg) = some uid) (hne : uid ≠ "")
    (hpoll : get_live_streams [uid] pu = .ok ld)
    (hlive : dget ld uid = some s) :
    (add_channel st chat_id arg (.ok tok) ru pu).intents =
      [alreadyLiveIntent chat_id (pyLower arg) s] ∧
    (add_channel st chat_id arg (.ok tok) ru pu).live_status =
      dset st.live_status uid true ∧
    ∀ (st₂ : MonitorState) (ru₂ : Except Unit (List (String × String)))
      (pu₂ : Except Unit (List (String × StreamInfo)))
      (c₂ : Cache) (m₂ : List (String × String)) (ld₂ : List (String × StreamInfo))
      (k : Transition),
      st₂.live_status = (add_channel st chat_id arg (.ok tok) ru pu).live_status →
      get_user_ids st₂.cache (allChannels st₂.watchlists) ru₂ = (c₂, .ok m₂) →
      get_live_streams (m₂.map Prod.snd) pu₂ = .ok ld₂ →
      dget m₂ (pyLower (pyLower arg)) = some uid →
      snapGetD (currentLive ld₂) uid = true →
      ¬ emits (runCycle st₂ ru₂ pu₂).2 chat_id (pyLower arg) k := by
  have hshape : add_channel st chat_id arg (.ok tok) ru pu =
      ⟨updateSub (setdefaultW st.watchlists chat_id) chat_id
          (fun s' => { s' with channels := s'.channels ++ [pyLower arg] }),
        c₁, dset st.live_status uid true, true,
        [alreadyLiveIntent chat_id (pyLower arg) s]⟩ := by
    simp only [add_channel, dget_setdefaultW_self, Option.getD_some, if_neg hnew,
      hres, huid, if_neg hne, hpoll, hlive]
  have hls : (add_channel st chat_id arg (.ok tok) ru pu).live_status =
      dset st.live_status uid true := by rw [hshape]
  refine ⟨by rw [hshape], by rw [hshape], ?_⟩
  intro st₂ ru₂ pu₂ c₂ m₂ ld₂ k hst₂ h1 h2 hm₂ hcur hem
  rw [runCycle_ok h1 h2] at hem
  rcases emits_decideIntent hem with ⟨i, hd, -⟩
  rw [decideIntent_eq hm₂ hne, hcur, hst₂, hls, snapGetD_dset_self] at hd
  simp at hd

/-- Concrete run of `add_live_channel_notifies_once_and_seeds`: `carol`
is live when added; one immediate notification, seeded snapshot. -/
theorem add_live_channel_notifies_once_and_seeds_witness :
    pyLower "carol" ∉ ((dget ([] : Watchlists) "c").getD ⟨[], []⟩).channels ∧
    get_user_ids ([] : Cache) [pyLower "carol"] (.ok [("carol", "7")]) =
      ([("carol", "7")], .ok [("carol", "7")]) ∧
    dget [("carol", "7")] (pyLower "carol") = some "7" ∧
    "7" ≠ "" ∧
    get_live_streams ["7"] (.ok [("7", StreamInfo.mk "t" "g" 5)]) =
      .ok [("7", StreamInfo.mk "t" "g" 5)] ∧
    dget [("7", StreamInfo.mk "t" "g" 5)] "7" = some (StreamInfo.mk "t" "g" 5) ∧
    ((add_channel ⟨[], [], []⟩ "c" "carol" (.ok "tk") (.ok [("carol", "7")])
        (.ok [("7", StreamInfo.mk "t" "g" 5)])).intents =
      [alreadyLiveIntent "c" (pyLower "carol") (StreamInfo.mk "t" "g" 5)] ∧
    (add_channel ⟨[], [], []⟩ "c" "carol" (.ok "tk") (.ok [("carol", "7")])
        (.ok [("7", StreamInfo.mk "t" "g" 5)])).live_status =
      dset [] "7" true ∧
    ∀ (st₂ : MonitorState) (ru₂ : Except Unit (List (String × String)))
      (pu₂ : Except Unit (List (String × StreamInfo)))
      (c₂ : Cache) (m₂ : List (String × String)) (ld₂ : List (String × StreamInfo))
      (k : Transition),
      st₂.live_status = (add_channel ⟨[], [], []⟩ "c" "carol" (.ok "tk")
        (.ok [("carol", "7")]) (.ok [("7", StreamInfo.mk "t" "g" 5)])).live_status →
      get_user_ids st₂.cache (allChannels st₂.watchlists) ru₂ = (c₂, .ok m₂) →
      get_live_streams (m₂.map Prod.snd) pu₂ = .ok ld₂ →
      dget m₂ (pyLower (pyLower "carol")) = some "7" →
      snapGetD (currentLive ld₂) "7" = true →
      ¬ emits (runCycle st₂ ru₂ pu₂).2 "c" (pyLower "carol") k) :=
  ⟨by decide, rfl, by decide, by decide, rfl, by decide,
    add_live_channel_notifies_once_and_seeds ⟨[], [], []⟩ "c" "carol" "tk"
      (.ok [("carol", "7")]) (.ok [("7", StreamInfo.mk "t" "g" 5)])
      [("carol", "7")] [("carol", "7")] "7" [("7", StreamInfo.mk "t" "g" 5)]
      (StreamInfo.mk "t" "g" 5) (by decide) rfl (by decide) (by decide) rfl
      (by decide)⟩

/-! ## C10: adding an already-watched channel is a no-op -/

/-- **C10.** When the (lowercased) channel is already on the
subscriber's watchlist, `/add` changes nothing: the watchlists, the
resolver cache and the live-state snapshot are returned untouched,
nothing is saved to disk, and no immediate check or notification
happens — for every possible outcome of the upstream calls, which are
never consulted. -/
theorem add_existing_channel_noop
    (st : MonitorState) (chat_id arg : String) (sub : Subscription)
    (tokenRes : Except Unit String)
    (ru : Except Unit (List (String × String)))
    (pu : Except Unit (List (String × StreamInfo)))
    (hsub : dget st.watchlists chat_id = some sub)
    (hmem : pyLower arg ∈ sub.channels) :
    add_channel st chat_id arg tokenRes ru pu =
      ⟨st.watchlists, st.cache, st.live_status, false, []⟩ := by
  have hsd : setdefaultW st.watchlists chat_id = st.watchlists := by
    unfold setdefaultW
    rw [if_pos (by simp [hsub])]
  simp only [add_channel, hsd, hsub, Option.getD_some, if_pos hmem]

/-- Concrete run of `add_existing_channel_noop`: re-adding `carol`
leaves every component of the state bit-for-bit unchanged. -/
theorem add_existing_channel_noop_witness :
    dget ([("c", Subscription.mk ["carol"] ["u"])] : Watchlists) "c" =
      some (Subscription.mk ["carol"] ["u"]) ∧
    pyLower "carol" ∈ ["carol"] ∧
    add_channel ⟨[("c", Subscription.mk ["carol"] ["u"])], [("x", "y")], [("7", true)]⟩
        "c" "carol" (.ok "tk") (.ok [("carol", "7")]) (.ok []) =
      ⟨[("c", Subscription.mk ["carol"] ["u"])], [("x", "y")], [("7", true)], false, []⟩ :=
  ⟨by decide, by decide,
    add_existing_channel_noop
      ⟨[("c", Subscription.mk ["carol"] ["u"])], [("x", "y")], [("7", true)]⟩
      "c" "carol" (Subscription.mk ["carol"] ["u"]) (.ok "tk")
      (.ok [("carol", "7")]) (.ok []) (by decide) (by decide)⟩

/-! ## C8: every store operation preserves duplicate-freedom -/

/-- `setdefault` preserves the store invariant. -/
theorem storeInv_setdefaultW {w : Watchlists} (c : String) (h : storeInv w) :
    storeInv (setdefaultW w c) := by
  unfold setdefaultW
  by_cases hc : (dget w c).isSome
  · rwa [if_pos hc]
  · rw [if_neg hc]
    have hnot : c ∉ w.map Prod.fst :=
      dget_eq_none_iff_keys.mp (Option.not_isSome_iff_eq_none.mp hc)
    constructor
    · rw [List.map_append]
      rw [List.nodup_append]
      refine ⟨h.1, by simp, ?_⟩
      intro a ha hb
      simp only [List.map_cons, List.map_nil, List.mem_singleton] at hb
      subst hb
      exact hnot ha
    · intro p hp
      rcases List.mem_append.mp hp with hp | hp
      · exact h.2 p hp
      · rw [List.mem_singleton] at hp
        subst hp
        exact ⟨List.nodup_nil, List.nodup_nil⟩

/-- `updateSub` preserves the store invariant when the mutation does on
the record actually stored at the key. -/
theorem storeInv_updateSub {w : Watchlists} {c : String}
    {f : Subscription → Subscription} (h : storeInv w)
    (hf : ∀ s, (c, s) ∈ w → s.channels.Nodup → s.apprise_urls.Nodup →
      (f s).channels.Nodup ∧ (f s).apprise_urls.Nodup) :
    storeInv (updateSub w c f) := by
  constructor
  · rw [updateSub_keys]
    exact h.1
  · intro p hp
    rcases mem_updateSub hp with hp | ⟨s, hs, rfl⟩
    · exact h.2 p hp
    · have hn := h.2 (c, s) hs
      exact hf s hs hn.1 hn.2

/-- Appending a genuinely new element keeps a list duplicate-free. -/
theorem nodup_append_singleton {l : List String} {a : String}
    (h : l.Nodup) (ha : a ∉ l) : (l ++ [a]).Nodup := by
  refine List.Nodup.append h (by simp) ?_
  intro x hx hb
  rw [List.mem_singleton] at hb
  subst hb
  exact ha hx

/-- **C8.** Every subscription-store operation — record creation
(`/start`, `setdefault`), `/add` (for any immediate-check outcome),
`/remove`, saving a confirmed apprise URL, and `/rmapprise` — preserves
the invariant that every subscriber's channel list and apprise-URL list
contain no duplicates (URLs compared by exact string match). -/
theorem store_ops_preserve_nodup
    (w : Watchlists) (chat_id arg url : String) (index : Nat)
    (cache : Cache) (ls : Snapshot) (tokenRes : Except Unit String)
    (ru : Except Unit (List (String × String)))
    (pu : Except Unit (List (String × StreamInfo)))
    (h : storeInv w) :
    storeInv (setdefaultW w chat_id) ∧
    storeInv ((add_channel ⟨w, cache, ls⟩ chat_id arg tokenRes ru pu).watchlists) ∧
    storeInv (remove_channel w chat_id arg) ∧
    storeInv (confirm_apprise w chat_id url) ∧
    storeInv (remove_apprise w chat_id index) := by
  refine ⟨storeInv_setdefaultW chat_id h, ?_, ?_, ?_, ?_⟩
  · by_cases hnew : pyLower arg ∈ ((dget w chat_id).getD ⟨[], []⟩).channels
    · have hkeep : (add_channel ⟨w, cache, ls⟩ chat_id arg tokenRes ru pu).watchlists =
          setdefaultW w chat_id := by
        simp only [add_channel, dget_setdefaultW_self, Option.getD_some, if_pos hnew]
      rw [hkeep]
      exact storeInv_setdefaultW chat_id h
    · rw [(add_channel_watchlists ⟨w, cache, ls⟩ chat_id arg tokenRes ru pu hnew).1]
      apply storeInv_updateSub (storeInv_setdefaultW chat_id h)
      intro s hs hcn hau
      have hseq : s = (dget w chat_id).getD ⟨[], []⟩ :=
        keys_nodup_unique (storeInv_setdefaultW chat_id h).1 hs
          (dget_mem (dget_setdefaultW_self w chat_id))
      subst hseq
      exact ⟨nodup_append_singleton hcn hnew, hau⟩
  · simp only [remove_channel]
    cases hc : dget w chat_id with
    | none => exact h
    | some sub =>
      dsimp only
      by_cases hm : pyLower arg ∈ sub.channels
      · rw [if_pos hm]
        apply storeInv_updateSub h
        intro s hs hcn hau
        exact ⟨List.Nodup.erase _ hcn, hau⟩
      · rw [if_neg hm]
        exact h
  · simp only [confirm_apprise]
    by_cases hm : url ∈ ((dget (setdefaultW w chat_id) chat_id).getD ⟨[], []⟩).apprise_urls
    · rw [if_pos hm]
      exact storeInv_setdefaultW chat_id h
    · rw [if_neg hm]
      apply storeInv_updateSub (storeInv_setdefaultW chat_id h)
      intro s hs hcn hau
      have hseq : s = (dget w chat_id).getD ⟨[], []⟩ :=
        keys_nodup_unique (storeInv_setdefaultW chat_id h).1 hs
          (dget_mem (dget_setdefaultW_self w chat_id))
      rw [dget_setdefaultW_self, Option.getD_some] at hm
      subst hseq
      exact ⟨hcn, nodup_append_singleton hau hm⟩
  · simp only [remove_apprise]
    by_cases hi : index < 1 ∨ index > (((dget w chat_id).getD ⟨[], []⟩).apprise_urls).length
    · rw [if_pos hi]
      exact h
    · rw [if_neg hi]
      apply storeInv_updateSub h
      intro s hs hcn hau
      exact ⟨hcn, List.Nodup.eraseIdx _ hau⟩

/-- Concrete run of `store_ops_preserve_nodup` on a one-subscriber
store. -/
theorem store_ops_preserve_nodup_witness :
    storeInv [("c", Subscription.mk ["a"] ["u"])] ∧
    (storeInv (setdefaultW [("c", Subscription.mk ["a"] ["u"])] "c") ∧
    storeInv ((add_channel ⟨[("c", Subscription.mk ["a"] ["u"])], [], []⟩
        "c" "b" (.error ()) (.ok []) (.ok [])).watchlists) ∧
    storeInv (remove_channel [("c", Subscription.mk ["a"] ["u"])] "c" "b") ∧
    storeInv (confirm_apprise [("c", Subscription.mk ["a"] ["u"])] "c" "v") ∧
    storeInv (remove_apprise [("c", Subscription.mk ["a"] ["u"])] "c" 1)) :=
  ⟨⟨by decide, by decide⟩,
    store_ops_preserve_nodup [("c", Subscription.mk ["a"] ["u"])] "c" "b" "v" 1
      [] [] (.error ()) (.ok []) (.ok []) ⟨by decide, by decide⟩⟩

end Twitchrise
